import Mathlib

/-!
Verification of the multi-tier cache subsystem of the Solana gRPC indexer
(src/src/cache.rs).  The cache manager (`IndexerCache`) owns four entity
stores plus a metrics store; the underlying bounded store is the moka
library, whose observable per-key contract (the most recent completed
insert is visible to later gets; `invalidate_all` empties the store) is
modelled with association lists.  Rust `f64` metric values are modelled as
`ℚ`: every value the code stores in a metric is the literal `1.0`, and
every arithmetic result involved in the claims is exact in `f64`, so no
rounding behaviour is lost.  Time (`SystemTime::now`) is passed explicitly
as an `Int` parameter where the source reads the clock.
-/

/-- Association-list lookup: first binding of the key wins. -/
def lookupAssoc {κ α : Type} [DecidableEq κ] : List (κ × α) → κ → Option α
  | [], _ => none
  | e :: rest, k => if e.1 = k then some e.2 else lookupAssoc rest k

/-- Association-list insert-or-replace: removes any old binding of the key. -/
def insertAssoc {κ α : Type} [DecidableEq κ] (l : List (κ × α)) (k : κ) (v : α) :
    List (κ × α) :=
  (k, v) :: l.filter (fun e => decide (e.1 ≠ k))

/-- Cached slot information with metadata (struct `CachedSlotInfo`). -/
structure CachedSlotInfo where
  slot : Nat
  leader : String
  block_hash : String
  timestamp : Int
  confirmed : Bool
  finalized : Bool
  cached_at : Int
deriving DecidableEq

/-- Cached transaction information (struct `CachedTransaction`).  The source
fields `from` and `to` are Lean keywords and are rendered `from_addr` and
`to_addr`. -/
structure CachedTransaction where
  signature : String
  slot : Nat
  from_addr : String
  to_addr : String
  amount : Nat
  fee : Nat
  status : String
  cached_at : Int
deriving DecidableEq

/-- Cached account information (struct `CachedAccount`). -/
structure CachedAccount where
  pubkey : String
  lamports : Nat
  owner : String
  executable : Bool
  rent_epoch : Nat
  data_len : Nat
  cached_at : Int
deriving DecidableEq

/-- One metric entry: `update_cache_metrics` stores the json object
`\x7b "value": value, "timestamp": timestamp \x7d` under the metric name. -/
structure MetricSample where
  value : ℚ
  timestamp : Int
deriving DecidableEq

/-- The multi-layer cache manager (struct `IndexerCache`): four entity
stores plus the metrics store, each modelled by its key-to-value content. -/
structure IndexerCache where
  hot_slots : List (Nat × CachedSlotInfo)
  transactions : List (String × CachedTransaction)
  accounts : List (String × CachedAccount)
  blocks : List (Nat × List Nat)
  metrics : List (String × MetricSample)
deriving DecidableEq

/-- `IndexerCache::new`: all five moka caches start empty. -/
def IndexerCache.new : IndexerCache := ⟨[], [], [], [], []⟩

/-- `IndexerCache::update_cache_metrics`: inserts (overwrites) the metric
value under the key, together with the current unix timestamp.  Note the
source performs a plain `insert`, not an increment. -/
def update_cache_metrics (c : IndexerCache) (now : Int) (key : String) (value : ℚ) :
    IndexerCache :=
  { c with metrics := insertAssoc c.metrics key ⟨value, now⟩ }

/-- `IndexerCache::cache_slot`: insert into the L1 hot-slot store keyed by
`slot_info.slot`, then record the `slots_cached` metric.  The source
returns `Ok(())` unconditionally, so the embedding is total. -/
def cache_slot (c : IndexerCache) (now : Int) (slot_info : CachedSlotInfo) :
    IndexerCache :=
  update_cache_metrics
    { c with hot_slots := insertAssoc c.hot_slots slot_info.slot slot_info }
    now "slots_cached" 1

/-- `IndexerCache::get_slot`: read from the L1 store; record a
`slot_cache_hits` or `slot_cache_misses` metric according to
`result.is_some()`; return the read result. -/
def get_slot (c : IndexerCache) (now : Int) (slot : Nat) :
    Option CachedSlotInfo × IndexerCache :=
  let result := lookupAssoc c.hot_slots slot
  if result.isSome then (result, update_cache_metrics c now "slot_cache_hits" 1)
  else (result, update_cache_metrics c now "slot_cache_misses" 1)

/-- `IndexerCache::cache_transaction`: insert keyed by `tx.signature`, then
record the `transactions_cached` metric. -/
def cache_transaction (c : IndexerCache) (now : Int) (tx : CachedTransaction) :
    IndexerCache :=
  update_cache_metrics
    { c with transactions := insertAssoc c.transactions tx.signature tx }
    now "transactions_cached" 1

/-- `IndexerCache::get_transaction`: read from the L2 store and record a
`tx_cache_hits` or `tx_cache_misses` metric. -/
def get_transaction (c : IndexerCache) (now : Int) (signature : String) :
    Option CachedTransaction × IndexerCache :=
  let result := lookupAssoc c.transactions signature
  if result.isSome then (result, update_cache_metrics c now "tx_cache_hits" 1)
  else (result, update_cache_metrics c now "tx_cache_misses" 1)

/-- `IndexerCache::cache_account`: insert keyed by `account.pubkey`, then
record the `accounts_cached` metric. -/
def cache_account (c : IndexerCache) (now : Int) (account : CachedAccount) :
    IndexerCache :=
  update_cache_metrics
    { c with accounts := insertAssoc c.accounts account.pubkey account }
    now "accounts_cached" 1

/-- `IndexerCache::get_account`: read from the L3 store and record an
`account_cache_hits` or `account_cache_misses` metric. -/
def get_account (c : IndexerCache) (now : Int) (pubkey : String) :
    Option CachedAccount × IndexerCache :=
  let result := lookupAssoc c.accounts pubkey
  if result.isSome then (result, update_cache_metrics c now "account_cache_hits" 1)
  else (result, update_cache_metrics c now "account_cache_misses" 1)

/-- `IndexerCache::cache_block`: insert the raw byte payload (modelled as
`List Nat`) keyed by slot, then record the `blocks_cached` metric. -/
def cache_block (c : IndexerCache) (now : Int) (slot : Nat) (block_data : List Nat) :
    IndexerCache :=
  update_cache_metrics
    { c with blocks := insertAssoc c.blocks slot block_data }
    now "blocks_cached" 1

/-- `IndexerCache::get_block`: read from the L4 store and record a
`block_cache_hits` or `block_cache_misses` metric. -/
def get_block (c : IndexerCache) (now : Int) (slot : Nat) :
    Option (List Nat) × IndexerCache :=
  let result := lookupAssoc c.blocks slot
  if result.isSome then (result, update_cache_metrics c now "block_cache_hits" 1)
  else (result, update_cache_metrics c now "block_cache_misses" 1)

/-- `IndexerCache::invalidate_all`: invalidates all five caches, leaving
every store empty. -/
def invalidate_all (_c : IndexerCache) : IndexerCache := ⟨[], [], [], [], []⟩

/-- `IndexerCache::get_metric_value`: look the metric up and extract its
`value` field. -/
def get_metric_value (c : IndexerCache) (key : String) : Option ℚ :=
  (lookupAssoc c.metrics key).map MetricSample.value

/-- Sum of the four per-kind hit metrics, each defaulting to 0 when absent,
exactly as in `IndexerCache::calculate_hit_ratio`. -/
def recorded_hits (c : IndexerCache) : ℚ :=
  (get_metric_value c "slot_cache_hits").getD 0 +
  (get_metric_value c "tx_cache_hits").getD 0 +
  (get_metric_value c "account_cache_hits").getD 0 +
  (get_metric_value c "block_cache_hits").getD 0

/-- Sum of the four per-kind miss metrics, each defaulting to 0 when
absent, exactly as in `IndexerCache::calculate_hit_ratio`. -/
def recorded_misses (c : IndexerCache) : ℚ :=
  (get_metric_value c "slot_cache_misses").getD 0 +
  (get_metric_value c "tx_cache_misses").getD 0 +
  (get_metric_value c "account_cache_misses").getD 0 +
  (get_metric_value c "block_cache_misses").getD 0

/-- `IndexerCache::calculate_hit_ratio`: hits divided by hits plus misses,
guarded to 0 when no requests are recorded. -/
def calculate_hit_ratio (c : IndexerCache) : ℚ :=
  if recorded_hits c + recorded_misses c > 0 then
    recorded_hits c / (recorded_hits c + recorded_misses c)
  else 0

/-- Weigher of the transactions tier: `signature.len() + 200`. -/
def tx_weight (t : CachedTransaction) : Nat := t.signature.length + 200

/-- Weigher of the accounts tier: `data_len + 500`. -/
def account_weight (a : CachedAccount) : Nat := a.data_len + 500

/-- Total weighted size across the four entity stores (the hot-slot store
has no weigher, so each entry weighs 1). -/
def total_weighted_size (c : IndexerCache) : Nat :=
  c.hot_slots.length +
  (c.transactions.map (fun e => tx_weight e.2)).sum +
  (c.accounts.map (fun e => account_weight e.2)).sum +
  (c.blocks.map (fun e => e.2.length)).sum

/-- Total entry count across the four entity stores. -/
def total_entry_count (c : IndexerCache) : Nat :=
  c.hot_slots.length + c.transactions.length + c.accounts.length + c.blocks.length

/-- `IndexerCache::calculate_memory_efficiency`: weighted size per entry,
guarded to 0 when there are no entries. -/
def calculate_memory_efficiency (c : IndexerCache) : ℚ :=
  if total_entry_count c > 0 then
    (total_weighted_size c : ℚ) / (total_entry_count c : ℚ)
  else 0

/-- `IndexerCache::calculate_avg_response_time`: mean of the four per-kind
response-time metrics, guarded to 0 when their sum is 0. -/
def calculate_avg_response_time (c : IndexerCache) : ℚ :=
  let s := (get_metric_value c "slot_avg_response_time_us").getD 0
  let t := (get_metric_value c "tx_avg_response_time_us").getD 0
  let a := (get_metric_value c "account_avg_response_time_us").getD 0
  let b := (get_metric_value c "block_avg_response_time_us").getD 0
  if s + t + a + b > 0 then (s + t + a + b) / 4 else 0

/-- The `performance` and `health` payload of
`IndexerCache::get_performance_metrics` (the nested `cache_statistics`
snapshot adds nothing the claims need). -/
structure PerformanceMetrics where
  cache_hit_ratio : ℚ
  memory_efficiency : ℚ
  avg_response_time_us : ℚ
  health_status : String
deriving DecidableEq

/-- `IndexerCache::get_performance_metrics`: the health status field is the
string literal `"healthy"`. -/
def get_performance_metrics (c : IndexerCache) : PerformanceMetrics :=
  { cache_hit_ratio := calculate_hit_ratio c
  , memory_efficiency := calculate_memory_efficiency c
  , avg_response_time_us := calculate_avg_response_time c
  , health_status := "healthy" }

/-- Modelled from the spec: the Tier construction parameters (section 4.1).
The bounded-store implementation behind each Tier is the moka library, not
code under src/; only the builder arguments appear in
`IndexerCache::new`. -/
structure TierConfig (α : Type) where
  max_entries : Nat
  max_weight : Nat
  weigher : α → Nat

/-- Modelled from the spec: a Tier is a bounded associative store; the
entry list is kept in recency order, least recently used first, most
recently used last.  The store implementation (moka) is not under src/. -/
structure Tier (κ α : Type) where
  entries : List (κ × α)

/-- A freshly built Tier is empty. -/
def Tier.empty {κ α : Type} : Tier κ α := ⟨[]⟩

/-- Modelled from the spec: `put` inserts or replaces, refreshing the
entry's recency; a value whose own weight exceeds `max_weight` is rejected
silently and not stored (spec sections 4.1 and 7). -/
def Tier.put {κ α : Type} [DecidableEq κ] (cfg : TierConfig α) (t : Tier κ α)
    (k : κ) (v : α) : Tier κ α :=
  if cfg.max_weight < cfg.weigher v then t
  else ⟨t.entries.filter (fun e => decide (e.1 ≠ k)) ++ [(k, v)]⟩

/-- Modelled from the spec: `get` returns the value when present and moves
the entry to most-recently-used; a successful read refreshes recency. -/
def Tier.get {κ α : Type} [DecidableEq κ] (t : Tier κ α) (k : κ) :
    Option α × Tier κ α :=
  match lookupAssoc t.entries k with
  | some v => (some v, ⟨t.entries.filter (fun e => decide (e.1 ≠ k)) ++ [(k, v)]⟩)
  | none => (none, t)

/-- Number of entries in the Tier (`entry_count`). -/
def Tier.entry_count {κ α : Type} (t : Tier κ α) : Nat := t.entries.length

/-- Sum of the per-entry weights of an entry list. -/
def weightOfEntries {κ α : Type} (cfg : TierConfig α) (l : List (κ × α)) : Nat :=
  (l.map (fun e => cfg.weigher e.2)).sum

/-- Total weighted size of the Tier (`weighted_size`). -/
def Tier.weighted_size {κ α : Type} (cfg : TierConfig α) (t : Tier κ α) : Nat :=
  weightOfEntries cfg t.entries

/-- Modelled from the spec: capacity-driven eviction removes
least-recently-used entries (the front of the recency list) until both the
entry-count cap and the weight cap hold (spec section 4.1). -/
def evictToFit {κ α : Type} (cfg : TierConfig α) : List (κ × α) → List (κ × α)
  | [] => []
  | e :: rest =>
    if (e :: rest).length ≤ cfg.max_entries ∧
        weightOfEntries cfg (e :: rest) ≤ cfg.max_weight then e :: rest
    else evictToFit cfg rest

/-- Modelled from the spec: `run_pending_maintenance` forces eviction of
over-cap entries synchronously (spec section 4.1; `IndexerCache::run_maintenance`
delegates to the library's `run_pending_tasks`). -/
def runPendingMaintenance {κ α : Type} (cfg : TierConfig α) (t : Tier κ α) :
    Tier κ α :=
  ⟨evictToFit cfg t.entries⟩

/-- Apply a sequence of `put` calls to a Tier. -/
def applyPuts {κ α : Type} [DecidableEq κ] (cfg : TierConfig α)
    (t : Tier κ α) : List (κ × α) → Tier κ α
  | [] => t
  | (k, v) :: rest => applyPuts cfg (Tier.put cfg t k v) rest

/-- The builder arguments `IndexerCache::new` passes for one tier:
`max_entries` is the argument of `CacheBuilder::new`, `max_weight` the
argument of `max_capacity` on the byte-weighed tiers, and the two
durations the `time_to_live` and `time_to_idle` arguments in seconds. -/
structure TierParams where
  max_entries : Nat
  max_weight : Option Nat
  ttl_secs : Nat
  idle_secs : Option Nat
deriving DecidableEq

/-- Hot-slot tier parameters from `IndexerCache::new`. -/
def hot_slots_params : TierParams := ⟨1000, none, 30, some 10⟩

/-- Transactions tier parameters from `IndexerCache::new`. -/
def transactions_params : TierParams := ⟨10000, some 50000000, 300, some 60⟩

/-- Accounts tier parameters from `IndexerCache::new`. -/
def accounts_params : TierParams := ⟨5000, some 100000000, 600, some 120⟩

/-- Blocks tier parameters from `IndexerCache::new` (no `time_to_idle`
call). -/
def blocks_params : TierParams := ⟨500, some 500000000, 3600, none⟩

/-- The external RPC client as the warmer uses it: `get_slot` for the
current slot and `get_slot_leaders(slot, 1)` per slot, both fallible. -/
structure RpcClient where
  current_slot : Except String Nat
  slot_leaders : Nat → Except String (List String)

/-- The `CachedSlotInfo` record `CacheWarmer::warm_recent_slots` builds for
a slot whose leader fetch succeeded (subtraction on `Nat` is saturating,
matching `saturating_sub`). -/
def warmSlotInfo (now : Int) (current : Nat) (slot : Nat) (leader : String) :
    CachedSlotInfo :=
  { slot := slot
  , leader := leader
  , block_hash := "block_" ++ toString slot
  , timestamp := now
  , confirmed := decide (slot < current - 2)
  , finalized := decide (slot < current - 32)
  , cached_at := now }

/-- One iteration of the warmer loop: on a successful, non-empty leader
fetch the slot is cached; otherwise the slot is skipped and the cache is
unchanged. -/
def warmStep (client : RpcClient) (now : Int) (current : Nat)
    (c : IndexerCache) (slot : Nat) : IndexerCache :=
  match client.slot_leaders slot with
  | .ok (leader :: _) => cache_slot c now (warmSlotInfo now current slot leader)
  | .ok [] => c
  | .error _ => c

/-- `CacheWarmer::warm_recent_slots`: fetch the current slot (propagating
its failure with the question-mark operator), then walk the last 100 slots
inclusive, skipping slots whose leader fetch fails. -/
def warm_recent_slots (c : IndexerCache) (client : RpcClient) (now : Int) :
    Except String IndexerCache :=
  match client.current_slot with
  | .error e => .error e
  | .ok current =>
    let start := current - 100
    .ok ((List.range' start (current + 1 - start)).foldl
      (warmStep client now current) c)

/-- One hit-or-miss read against the cache manager, used to state that a
sequence of gets never repopulates the entity stores. -/
inductive GetOp where
  | slotOp (now : Int) (k : Nat)
  | txnOp (now : Int) (k : String)
  | accountOp (now : Int) (k : String)
  | blockOp (now : Int) (k : Nat)

/-- State transition of one get call (the returned value is dropped). -/
def applyGet (c : IndexerCache) : GetOp → IndexerCache
  | .slotOp now k => (get_slot c now k).2
  | .txnOp now k => (get_transaction c now k).2
  | .accountOp now k => (get_account c now k).2
  | .blockOp now k => (get_block c now k).2

/-- Concrete slot record used in the hit-ratio trace: a caller-built record
whose `cached_at` field is 0. -/
def c1_slotrec : CachedSlotInfo :=
  { slot := 100, leader := "L1", block_hash := "h1", timestamp := 0
  , confirmed := true, finalized := false, cached_at := 0 }

/-- Trace for the hit-ratio accounting claim: one insert, then three gets
(hit, hit, miss) against a freshly constructed manager. -/
def c1_g1 : Option CachedSlotInfo × IndexerCache :=
  get_slot (cache_slot IndexerCache.new 0 c1_slotrec) 1 100

/-- Second get of the trace: another hit on slot 100. -/
def c1_g2 : Option CachedSlotInfo × IndexerCache := get_slot c1_g1.2 2 100

/-- Third get of the trace: a miss on the absent slot 200. -/
def c1_g3 : Option CachedSlotInfo × IndexerCache := get_slot c1_g2.2 3 200

/-- Tier configuration of the eviction scenario: `max_entries = 2`, every
entry weighs 1, weight cap far from binding. -/
def lruCfg : TierConfig Unit := ⟨2, 1000, fun _ => 1⟩

/-- Eviction scenario state: keys A, B, C inserted in order with no reads
in between, then maintenance. -/
def lruT4 : Tier String Unit :=
  runPendingMaintenance lruCfg
    (Tier.put lruCfg
      (Tier.put lruCfg (Tier.put lruCfg Tier.empty "A" ()) "B" ()) "C" ())

/-- Byte-weighed tier configuration of the oversized-rejection scenario:
`max_weight = 100`, weight is the byte length. -/
def blobCfg : TierConfig (List Nat) := ⟨1000, 100, List.length⟩

/-- Oversized-rejection scenario state: a single put of a 500-byte blob
into a fresh byte-weighed tier. -/
def blobT1 : Tier Nat (List Nat) :=
  Tier.put blobCfg Tier.empty 7 (List.replicate 500 0)

/-- Concrete client for the warmer scenario: current slot 3, the leader
fetch for slot 1 fails, every other slot fetch succeeds. -/
def warmClient : RpcClient :=
  { current_slot := .ok 3
  , slot_leaders := fun s => if s = 1 then .error "boom" else .ok ["LX"] }

/-- Concrete slot record with a caller-chosen `cached_at` of 12345, used to
show the Tier stores it verbatim. -/
def c3_rec : CachedSlotInfo :=
  { slot := 5, leader := "L", block_hash := "h", timestamp := 7
  , confirmed := false, finalized := false, cached_at := 12345 }

/-- Two cache-manager states agree on all four entity stores (the metrics
store may differ). -/
def sameEntityStores (c c2 : IndexerCache) : Prop :=
  c2.hot_slots = c.hot_slots ∧ c2.transactions = c.transactions ∧
  c2.accounts = c.accounts ∧ c2.blocks = c.blocks

theorem lookupAssoc_insert_self {κ α : Type} [DecidableEq κ]
    (l : List (κ × α)) (k : κ) (v : α) :
    lookupAssoc (insertAssoc l k v) k = some v := by
  simp [insertAssoc, lookupAssoc]

theorem lookupAssoc_cons {κ α : Type} [DecidableEq κ] (e : κ × α)
    (rest : List (κ × α)) (k2 : κ) :
    lookupAssoc (e :: rest) k2 =
      if e.1 = k2 then some e.2 else lookupAssoc rest k2 := rfl

theorem lookupAssoc_filter_ne {κ α : Type} [DecidableEq κ] (l : List (κ × α))
    (k k2 : κ) (h : k2 ≠ k) :
    lookupAssoc (l.filter (fun e => decide (e.1 ≠ k))) k2 = lookupAssoc l k2 := by
  induction l with
  | nil => rfl
  | cons e rest ih =>
    by_cases he : e.1 = k
    · have hfilter : (e :: rest).filter (fun e => decide (e.1 ≠ k)) =
          rest.filter (fun e => decide (e.1 ≠ k)) := by
        rw [List.filter_cons]
        simp [he]
      have hne : ¬ e.1 = k2 := by
        rw [he]
        exact fun hk => h hk.symm
      have hlook : lookupAssoc (e :: rest) k2 = lookupAssoc rest k2 := by
        simp [lookupAssoc, hne]
      rw [hfilter, hlook]
      exact ih
    · have hfilter : (e :: rest).filter (fun e => decide (e.1 ≠ k)) =
          e :: rest.filter (fun e => decide (e.1 ≠ k)) := by
        rw [List.filter_cons]
        simp [he]
      rw [hfilter, lookupAssoc_cons, lookupAssoc_cons]
      by_cases he2 : e.1 = k2
      · rw [if_pos he2, if_pos he2]
      · rw [if_neg he2, if_neg he2]
        exact ih

theorem lookupAssoc_insert_ne {κ α : Type} [DecidableEq κ] (l : List (κ × α))
    (k : κ) (v : α) (k2 : κ) (h : k2 ≠ k) :
    lookupAssoc (insertAssoc l k v) k2 = lookupAssoc l k2 := by
  have hk : ¬ (k = k2) := fun hk => h hk.symm
  unfold insertAssoc
  rw [lookupAssoc_cons, if_neg hk]
  exact lookupAssoc_filter_ne l k k2 h

theorem get_slot_snd_stores (c : IndexerCache) (now : Int) (k : Nat) :
    sameEntityStores c (get_slot c now k).2 := by
  by_cases h : (lookupAssoc c.hot_slots k).isSome <;>
    simp [get_slot, h, update_cache_metrics, sameEntityStores]

theorem get_transaction_snd_stores (c : IndexerCache) (now : Int) (k : String) :
    sameEntityStores c (get_transaction c now k).2 := by
  by_cases h : (lookupAssoc c.transactions k).isSome <;>
    simp [get_transaction, h, update_cache_metrics, sameEntityStores]

theorem get_account_snd_stores (c : IndexerCache) (now : Int) (k : String) :
    sameEntityStores c (get_account c now k).2 := by
  by_cases h : (lookupAssoc c.accounts k).isSome <;>
    simp [get_account, h, update_cache_metrics, sameEntityStores]

theorem get_block_snd_stores (c : IndexerCache) (now : Int) (k : Nat) :
    sameEntityStores c (get_block c now k).2 := by
  by_cases h : (lookupAssoc c.blocks k).isSome <;>
    simp [get_block, h, update_cache_metrics, sameEntityStores]

theorem applyGet_sameStores (c : IndexerCache) (op : GetOp) :
    sameEntityStores c (applyGet c op) := by
  cases op with
  | slotOp now k => exact get_slot_snd_stores c now k
  | txnOp now k => exact get_transaction_snd_stores c now k
  | accountOp now k => exact get_account_snd_stores c now k
  | blockOp now k => exact get_block_snd_stores c now k

theorem foldl_applyGet_sameStores (ops : List GetOp) (c : IndexerCache) :
    sameEntityStores c (ops.foldl applyGet c) := by
  induction ops generalizing c with
  | nil => exact ⟨rfl, rfl, rfl, rfl⟩
  | cons op rest ih =>
    have h1 := applyGet_sameStores c op
    have h2 := ih (applyGet c op)
    exact ⟨h2.1.trans h1.1, h2.2.1.trans h1.2.1, h2.2.2.1.trans h1.2.2.1,
      h2.2.2.2.trans h1.2.2.2⟩

theorem evictToFit_caps {κ α : Type} (cfg : TierConfig α) (l : List (κ × α)) :
    (evictToFit cfg l).length ≤ cfg.max_entries ∧
    weightOfEntries cfg (evictToFit cfg l) ≤ cfg.max_weight := by
  induction l with
  | nil =>
    constructor <;> simp [evictToFit, weightOfEntries]
  | cons e rest ih =>
    rw [evictToFit]
    split
    · next h => exact h
    · exact ih

theorem warmStep_lookup_other (client : RpcClient) (now : Int) (current : Nat)
    (c : IndexerCache) (t s : Nat) (v : CachedSlotInfo) (hts : t ≠ s)
    (h : lookupAssoc c.hot_slots s = some v) :
    lookupAssoc (warmStep client now current c t).hot_slots s = some v := by
  unfold warmStep
  cases hf : client.slot_leaders t with
  | error e => exact h
  | ok leaders =>
    cases leaders with
    | nil => exact h
    | cons leader restl =>
      show lookupAssoc
        (cache_slot c now (warmSlotInfo now current t leader)).hot_slots s = some v
      have : (cache_slot c now (warmSlotInfo now current t leader)).hot_slots =
          insertAssoc c.hot_slots t (warmSlotInfo now current t leader) := rfl
      rw [this, lookupAssoc_insert_ne _ _ _ _ (fun hk => hts hk.symm)]
      exact h

theorem warmStep_lookup_self (client : RpcClient) (now : Int) (current : Nat)
    (c : IndexerCache) (s : Nat) (leader : String) (restl : List String)
    (hfetch : client.slot_leaders s = .ok (leader :: restl)) :
    lookupAssoc (warmStep client now current c s).hot_slots s =
      some (warmSlotInfo now current s leader) := by
  unfold warmStep
  rw [hfetch]
  show lookupAssoc
    (cache_slot c now (warmSlotInfo now current s leader)).hot_slots s =
      some (warmSlotInfo now current s leader)
  have : (cache_slot c now (warmSlotInfo now current s leader)).hot_slots =
      insertAssoc c.hot_slots s (warmSlotInfo now current s leader) := rfl
  rw [this, lookupAssoc_insert_self]

theorem warmLoop_lookup (client : RpcClient) (now : Int) (current : Nat)
    (s : Nat) (leader : String) (restl : List String)
    (hfetch : client.slot_leaders s = .ok (leader :: restl)) :
    ∀ (slots : List Nat) (c : IndexerCache),
      (s ∈ slots ∨
        lookupAssoc c.hot_slots s = some (warmSlotInfo now current s leader)) →
      lookupAssoc ((slots.foldl (warmStep client now current) c)).hot_slots s =
        some (warmSlotInfo now current s leader) := by
  intro slots
  induction slots with
  | nil =>
    intro c h
    rcases h with h | h
    · cases h
    · simpa using h
  | cons t ts ih =>
    intro c h
    show lookupAssoc
      ((ts.foldl (warmStep client now current)
        (warmStep client now current c t))).hot_slots s =
      some (warmSlotInfo now current s leader)
    rcases h with h | h
    · rcases List.mem_cons.mp h with h | h
      · subst h
        exact ih _ (Or.inr (warmStep_lookup_self client now current c s
          leader restl hfetch))
      · exact ih _ (Or.inl h)
    · by_cases hts : t = s
      · subst hts
        exact ih _ (Or.inr (warmStep_lookup_self client now current c t
          leader restl hfetch))
      · exact ih _ (Or.inr (warmStep_lookup_other client now current c t s _
          hts h))

/-- Claim C1 (code bug evidence): against a fresh manager, the trace
insert slot 100, get slot 100 (hit), get slot 100 (hit), get slot 200
(miss) has H = 2 hits out of N = 3 gets, so the claim demands a hit ratio
of 2/3; the code reports 1/2, because `update_cache_metrics` overwrites
each hit or miss metric with the constant 1.0 instead of incrementing a
counter. -/
theorem hit_ratio_overwrite_bug :
    c1_g1.1.isSome = true ∧ c1_g2.1.isSome = true ∧ c1_g3.1 = none ∧
    calculate_hit_ratio c1_g3.2 = 1 / 2 ∧ ((1 : ℚ) / 2) ≠ 2 / 3 := by
  refine ⟨rfl, rfl, rfl, ?_, by norm_num⟩
  have hh : recorded_hits c1_g3.2 = 1 + 0 + 0 + 0 := rfl
  have hm : recorded_misses c1_g3.2 = 1 + 0 + 0 + 0 := rfl
  unfold calculate_hit_ratio
  rw [hh, hm]
  norm_num

/-- Claim C2: after any sequence of put calls on a fresh Tier,
`run_pending_maintenance` leaves the entry count at most `max_entries` and
the weighted size at most `max_weight`. -/
theorem tier_capacity_invariant {κ α : Type} [DecidableEq κ]
    (cfg : TierConfig α) (ops : List (κ × α)) :
    (runPendingMaintenance cfg (applyPuts cfg Tier.empty ops)).entry_count ≤
      cfg.max_entries ∧
    Tier.weighted_size cfg (runPendingMaintenance cfg
      (applyPuts cfg Tier.empty ops)) ≤ cfg.max_weight :=
  evictToFit_caps cfg _

/-- Witness for claim C2 at a concrete configuration and put sequence. -/
theorem tier_capacity_invariant_witness :
    (runPendingMaintenance (⟨2, 1000, fun _ => 1⟩ : TierConfig Unit)
      (applyPuts ⟨2, 1000, fun _ => 1⟩ Tier.empty
        [((0 : Nat), ()), (1, ()), (2, ())])).entry_count ≤ 2 ∧
    Tier.weighted_size (⟨2, 1000, fun _ => 1⟩ : TierConfig Unit)
      (runPendingMaintenance ⟨2, 1000, fun _ => 1⟩
        (applyPuts ⟨2, 1000, fun _ => 1⟩ Tier.empty
          [((0 : Nat), ()), (1, ()), (2, ())])) ≤ 1000 :=
  tier_capacity_invariant ⟨2, 1000, fun _ => 1⟩ [((0 : Nat), ()), (1, ()), (2, ())]

/-- Claim C3 (counterexample): the record inserted with caller-supplied
`cached_at = 12345` while the clock reads 99999 is returned with
`cached_at = 12345`: the caller's value, not an insertion time assigned by
the Tier. -/
theorem cached_at_from_caller_counterexample :
    ((get_slot (cache_slot IndexerCache.new 99999 c3_rec) 99999 5).1.map
      CachedSlotInfo.cached_at) = some 12345 ∧ (12345 : Int) ≠ 99999 := by
  decide

/-- Claim C3 (amended): every `cache_<kind>` operation stores the record
verbatim, so the value returned by a subsequent `get_<kind>` carries
exactly the caller-supplied `cached_at` field. -/
theorem get_returns_record_verbatim (c : IndexerCache) (n1 n2 : Int)
    (s : CachedSlotInfo) (t : CachedTransaction) (a : CachedAccount) :
    (get_slot (cache_slot c n1 s) n2 s.slot).1 = some s ∧
    (get_transaction (cache_transaction c n1 t) n2 t.signature).1 = some t ∧
    (get_account (cache_account c n1 a) n2 a.pubkey).1 = some a := by
  refine ⟨?_, ?_, ?_⟩
  · simp [get_slot, cache_slot, update_cache_metrics, lookupAssoc_insert_self]
  · simp [get_transaction, cache_transaction, update_cache_metrics,
      lookupAssoc_insert_self]
  · simp [get_account, cache_account, update_cache_metrics,
      lookupAssoc_insert_self]

/-- Claim C4: the construction in `IndexerCache::new` gives the four tiers
exactly the parameters the claim lists: slots 1,000 entries, 30 s TTL,
10 s idle; transactions 10,000 entries, 50 MB, 5 min TTL, 1 min idle;
accounts 5,000 entries, 100 MB, 10 min TTL, 2 min idle; blocks 500
entries, 500 MB, 1 h TTL, no idle eviction. -/
theorem default_tier_parameters :
    hot_slots_params = ⟨1000, none, 30, some 10⟩ ∧
    transactions_params = ⟨10000, some (50 * 1000000), 5 * 60, some 60⟩ ∧
    accounts_params = ⟨5000, some (100 * 1000000), 10 * 60, some (2 * 60)⟩ ∧
    blocks_params = ⟨500, some (500 * 1000000), 60 * 60, none⟩ := by
  decide

/-- Claim C5: with `max_entries = 2`, inserting A, B, C in order with no
reads in between and then running maintenance leaves exactly 2 entries;
the least-recently-used key A is evicted while B and C remain
retrievable. -/
theorem lru_eviction_scenario :
    lruT4.entry_count = 2 ∧ (Tier.get lruT4 "A").1 = none ∧
    (Tier.get lruT4 "B").1 = some () ∧ (Tier.get lruT4 "C").1 = some () := by
  decide

set_option maxRecDepth 4000 in
/-- Claim C6: in a byte-weighed Tier with `max_weight = 100`, putting a
blob of weight 500 is a silent no-op: the subsequent get returns none and
the entry count stays 0. -/
theorem oversized_put_silent_noop :
    (Tier.get blobT1 7).1 = none ∧ blobT1.entry_count = 0 := by
  decide

/-- Claim C7: after `invalidate_all`, every subsequent get of any kind
returns none for every key, even after an arbitrary further sequence of
get calls (which never repopulate the entity stores). -/
theorem invalidate_all_then_gets_none (c : IndexerCache) (ops : List GetOp)
    (now : Int) (ks kb : Nat) (kt ka : String) :
    (get_slot (ops.foldl applyGet (invalidate_all c)) now ks).1 = none ∧
    (get_transaction (ops.foldl applyGet (invalidate_all c)) now kt).1 = none ∧
    (get_account (ops.foldl applyGet (invalidate_all c)) now ka).1 = none ∧
    (get_block (ops.foldl applyGet (invalidate_all c)) now kb).1 = none := by
  have h := foldl_applyGet_sameStores ops (invalidate_all c)
  have hs : (ops.foldl applyGet (invalidate_all c)).hot_slots = [] := h.1
  have ht : (ops.foldl applyGet (invalidate_all c)).transactions = [] := h.2.1
  have ha : (ops.foldl applyGet (invalidate_all c)).accounts = [] := h.2.2.1
  have hb : (ops.foldl applyGet (invalidate_all c)).blocks = [] := h.2.2.2
  refine ⟨?_, ?_, ?_, ?_⟩
  · simp [get_slot, hs, lookupAssoc]
  · simp [get_transaction, ht, lookupAssoc]
  · simp [get_account, ha, lookupAssoc]
  · simp [get_block, hb, lookupAssoc]

/-- Claim C8: when the recorded hits plus recorded misses are zero,
`calculate_hit_ratio` is exactly 0, not undefined. -/
theorem hit_ratio_zero_when_no_requests (c : IndexerCache)
    (h : recorded_hits c + recorded_misses c = 0) :
    calculate_hit_ratio c = 0 := by
  unfold calculate_hit_ratio
  rw [h]
  simp

/-- A freshly constructed manager has recorded neither hits nor misses. -/
theorem fresh_cache_no_requests :
    recorded_hits IndexerCache.new + recorded_misses IndexerCache.new = 0 := by
  have hh : recorded_hits IndexerCache.new = 0 + 0 + 0 + 0 := rfl
  have hm : recorded_misses IndexerCache.new = 0 + 0 + 0 + 0 := rfl
  rw [hh, hm]
  norm_num

/-- Witness for claim C8: a freshly constructed manager has no recorded
requests and reports a hit ratio of 0. -/
theorem hit_ratio_zero_when_no_requests_witness :
    recorded_hits IndexerCache.new + recorded_misses IndexerCache.new = 0 ∧
    calculate_hit_ratio IndexerCache.new = 0 :=
  ⟨fresh_cache_no_requests,
    hit_ratio_zero_when_no_requests IndexerCache.new fresh_cache_no_requests⟩

/-- Claim C9: whenever the current-slot fetch succeeds, every slot of the
warming window whose leader fetch succeeds is inserted into the slot
store, and `warm_recent_slots` returns Ok — a fetch failure at any other
slot neither removes this slot nor aborts the batch. -/
theorem warm_skips_failed_slot_only (c : IndexerCache) (client : RpcClient)
    (now : Int) (current : Nat) (s : Nat) (leader : String) (restl : List String)
    (hcur : client.current_slot = .ok current)
    (hlo : current - 100 ≤ s) (hhi : s ≤ current)
    (hfetch : client.slot_leaders s = .ok (leader :: restl)) :
    ∃ c2, warm_recent_slots c client now = .ok c2 ∧
      lookupAssoc c2.hot_slots s = some (warmSlotInfo now current s leader) := by
  refine ⟨(List.range' (current - 100) (current + 1 - (current - 100))).foldl
    (warmStep client now current) c, ?_, ?_⟩
  · unfold warm_recent_slots
    rw [hcur]
  · apply warmLoop_lookup client now current s leader restl hfetch
    left
    rw [List.mem_range'_1]
    refine ⟨hlo, ?_⟩
    have hle : current - 100 ≤ current + 1 :=
      le_trans (Nat.sub_le _ _) (Nat.le_succ _)
    rw [Nat.add_sub_cancel' hle]
    exact Nat.lt_succ_of_le hhi

/-- Witness for claim C9: with a client whose slot-1 fetch fails, slot 2
is still warmed and the batch completes. -/
theorem warm_skips_failed_slot_only_witness :
    ∃ c2, warm_recent_slots IndexerCache.new warmClient 7 = .ok c2 ∧
      lookupAssoc c2.hot_slots 2 = some (warmSlotInfo 7 3 2 "LX") :=
  warm_skips_failed_slot_only IndexerCache.new warmClient 7 3 2 "LX" [] rfl
    (by decide) (by decide) rfl

/-- Claim C10: the health status tag reported by
`get_performance_metrics` is the constant string healthy, for every cache
state. -/
theorem health_status_always_healthy (c : IndexerCache) :
    (get_performance_metrics c).health_status = "healthy" := rfl
